import Mathlib

/-!
Verification of the connector / command-orchestration core of a database
backup-restore system (django-dbbackup), against its natural-language
specification.  The repository ships only the package marker and the test
suite; the connector, command-runner, transform-chain and orchestrator
modules themselves are absent, so every definition below is modelled from
the specification (its §-references are given in each doc comment), with
the repository's test suite pinning the exact constants (flag spellings,
message texts, escaping format) where the specification describes them
only at design level.

Commands and filenames are modelled as `List Char` (byte strings); child
process environments as association lists of names to values.
-/

set_option maxRecDepth 10000

/-- The single-quote character, written via its code point. -/
def squote : Char := Char.ofNat 39

/-- The double-quote character, written via its code point. -/
def dquote : Char := Char.ofNat 34

/-- The backslash character, written via its code point. -/
def bslash : Char := Char.ofNat 92

/-- Substring containment on char-list strings (`pat` occurs inside `s`). -/
def strContains (s pat : List Char) : Prop := pat <:+: s

instance (s pat : List Char) : Decidable (strContains s pat) :=
  List.decidableInfix pat s

/-! ## Restore orchestrator: metadata compatibility check

Modelled from the spec §4.5 ("Metadata check") and §6 ("Metadata file
format"): the sidecar `.metadata` JSON records the originating engine and
optionally the fully-qualified connector class.
-/

/-- Modelled from the spec: the parsed content of a backup's sidecar
`.metadata` file — `absent` when the file is missing or unreadable
(legacy backups), otherwise the recorded engine identifier plus the
optional fully-qualified connector identifier (spec §6, "Metadata file
format"). -/
inductive MetadataRead where
  | absent : MetadataRead
  | present (engine : String) (connector : Option String) : MetadataRead
deriving DecidableEq

/-- The fully-qualified identifier of the native-serializer (Django)
connector class recorded in metadata sidecars. -/
def djangoConnectorClass : String := "dbbackup.db.django.DjangoConnector"

/-- The configuration-error message raised on an engine mismatch
(spec §4.5: "restoring to a different database engine is not
supported"). -/
def engineMismatchMessage : String :=
  "Restoring to a different database engine is not supported"

/-- Modelled from the spec (§4.5, the `_check_metadata` step of the
restore orchestrator, absent from `src/`): read the sidecar metadata; if
absent or unreadable, proceed without validation; if present, fail with a
configuration error when the recorded engine differs from the live target
database's engine, unless the metadata also records the engine-agnostic
native-serializer connector class. -/
def check_metadata (liveEngine : String) (meta : MetadataRead) :
    Except String Unit :=
  match meta with
  | .absent => .ok ()
  | .present engine connector =>
    if engine = liveEngine then .ok ()
    else if connector = some djangoConnectorClass then .ok ()
    else .error engineMismatchMessage

/-! ## Backup orchestrator: destination dispatch

Modelled from the spec §4.4 ("Destination dispatch rule"): a destination
path is routed to remote storage only when it starts with the literal
scheme prefix `s3://`; otherwise it is written as a local file.
-/

/-- Where the backup orchestrator writes an artifact: through the
remote-storage interface or through the local-file write path. -/
inductive WriteRoute where
  | remoteStorage (name : List Char) : WriteRoute
  | localFile (path : List Char) : WriteRoute
deriving DecidableEq

/-- The literal remote-storage scheme marker. -/
def s3Scheme : List Char := "s3://".toList

/-- Modelled from the spec (§4.4 destination dispatch of the backup
orchestrator, absent from `src/`): a path is treated as a remote-storage
URI only if it starts with the literal scheme marker `s3://`; a path
merely containing that substring elsewhere is a local filesystem path.
The path string is passed through unchanged on both routes. -/
def route_backup_write (path : List Char) : WriteRoute :=
  if s3Scheme.isPrefixOf path then .remoteStorage path else .localFile path

/-! ## Shell escaping and tokenization

Modelled from the spec §4.2 ("the value must be shell-escaped (quoting any
value containing whitespace or shell metacharacters) before insertion")
and §8 (the mysql-password-escaping scenario re-parses the command "with a
standard shell tokenizer").  The repository's tests pin the exact escaping
format to Python's `shlex.quote` (`utils.get_escaped_command_arg`) and the
re-parsing to POSIX-mode `shlex.split`.
-/

/-- The whitespace characters on which the tokenizer splits words. -/
def shWhitespace : List Char := [' ', Char.ofNat 9, Char.ofNat 10, Char.ofNat 13]

/-- Characters that never need shell quoting: ASCII alphanumerics plus
underscore, at-sign, percent, plus, equals, colon, comma, dot, slash and
hyphen (the complement of the unsafe set of Python shlex.quote). -/
def shSafeChar (c : Char) : Bool :=
  c.isAlphanum || ['_', '@', '%', '+', '=', ':', ',', '.', '/'].contains c
    || c = Char.ofNat 45

/-- The five-character sequence a single quote is rendered as inside a
single-quoted argument: close quote, double-quoted quote, reopen quote. -/
def shQuoteSeq : List Char := [squote, dquote, squote, dquote, squote]

/-- Replace every embedded single quote by `shQuoteSeq` (the body of the
quoted branch of `get_escaped_command_arg`). -/
def shEscapeQuotes : List Char → List Char
  | [] => []
  | c :: rest => (if c = squote then shQuoteSeq else [c]) ++ shEscapeQuotes rest

/-- Modelled from the spec (§4.2, the shell-escaping helper
`utils.get_escaped_command_arg`, absent from `src/`; the tests pin it to
Python `shlex.quote`): the empty string becomes two quotes, a string of
safe characters is returned unchanged, and anything else is wrapped in
single quotes with embedded single quotes rendered via `shQuoteSeq`. -/
def get_escaped_command_arg (s : List Char) : List Char :=
  if s = [] then [squote, squote]
  else if s.all shSafeChar then s
  else squote :: (shEscapeQuotes s ++ [squote])

/-- Tokenizer mode: outside quotes, after an escape character, inside
single quotes, inside double quotes, after an escape inside double
quotes. -/
inductive ShMode where
  | norm : ShMode
  | esc : ShMode
  | single : ShMode
  | double : ShMode
  | descape : ShMode
deriving DecidableEq

/-- Tokenizer state: current mode, the word being accumulated (`none` when
between words), and the completed tokens so far. -/
structure ShState where
  mode : ShMode
  word : Option (List Char)
  toks : List (List Char)
deriving DecidableEq

/-- The tokenizer's initial state. -/
def shInit : ShState := ⟨.norm, none, []⟩

/-- Append a character to the word in progress, starting one if needed. -/
def pushChar (w : Option (List Char)) (c : Char) : Option (List Char) :=
  some (w.getD [] ++ [c])

/-- One step of the POSIX shell tokenizer (Python `shlex.split` in POSIX
mode): whitespace ends a word; quotes and the escape character switch
modes; everything inside single quotes is literal; inside double quotes a
backslash escapes only double quotes and backslashes. -/
def shStep (st : ShState) (c : Char) : ShState :=
  match st.mode with
  | .norm =>
    if c ∈ shWhitespace then
      match st.word with
      | some w => ⟨.norm, none, st.toks ++ [w]⟩
      | none => st
    else if c = squote then ⟨.single, some (st.word.getD []), st.toks⟩
    else if c = dquote then ⟨.double, some (st.word.getD []), st.toks⟩
    else if c = bslash then ⟨.esc, st.word, st.toks⟩
    else ⟨.norm, pushChar st.word c, st.toks⟩
  | .esc => ⟨.norm, pushChar st.word c, st.toks⟩
  | .single =>
    if c = squote then ⟨.norm, st.word, st.toks⟩
    else ⟨.single, pushChar st.word c, st.toks⟩
  | .double =>
    if c = dquote then ⟨.norm, st.word, st.toks⟩
    else if c = bslash then ⟨.descape, st.word, st.toks⟩
    else ⟨.double, pushChar st.word c, st.toks⟩
  | .descape =>
    if c = dquote ∨ c = bslash then ⟨.double, pushChar st.word c, st.toks⟩
    else ⟨.double, pushChar (pushChar st.word bslash) c, st.toks⟩

/-- Run the tokenizer over a character list. -/
def shRun : List Char → ShState → ShState
  | [], st => st
  | c :: rest, st => shRun rest (shStep st c)

/-- Flush the word in progress at end of input. -/
def shFinish (st : ShState) : List (List Char) :=
  match st.word with
  | some w => st.toks ++ [w]
  | none => st.toks

/-- Modelled from the spec (§8: "re-parsing the command with a standard
shell-tokenizer"; the Command Runner hands command strings to
`shlex.split` before spawning): full tokenization of a command string. -/
def shlex_split (s : List Char) : List (List Char) := shFinish (shRun s shInit)

/-! ## MySQL connector command construction

Modelled from the spec §4.2: flag-based engines put host/port/user flags
on the command line only when present in settings; the password flag value
is shell-escaped before insertion; exclude lists expand to one repeated
flag per entry.  The repository's MySQL connector tests pin the exact flag
spellings (`--host=`, `--port=`, `--user=`, `--password=`,
`--ignore-table=<db>.<table>`).
-/

/-- Decimal rendering of a natural number (for port flags). -/
def natToChars (n : Nat) : List Char := (Nat.repr n).toList

/-- Connection settings of the MySQL connector (spec §3,
`ConnectorSettings`): absent entries produce no flag. -/
structure MysqlSettings where
  name : List Char
  host : Option (List Char)
  port : Option Nat
  user : Option (List Char)
  password : Option (List Char)
  exclude : List (List Char)

namespace MysqlDumpConnector

/-- The host/port/user/password flag block shared by the dump and restore
commands. -/
def connection_flags (s : MysqlSettings) : List Char :=
  (match s.host with
    | some h => " --host=".toList ++ h
    | none => [])
  ++ (match s.port with
    | some p => " --port=".toList ++ natToChars p
    | none => [])
  ++ (match s.user with
    | some u => " --user=".toList ++ u
    | none => [])
  ++ (match s.password with
    | some pw => " --password=".toList ++ get_escaped_command_arg pw
    | none => [])

/-- Modelled from the spec (§4.2 command-line construction for the MySQL
connector, absent from `src/`): the `mysqldump` command built by
`create_dump`, with per-table `--ignore-table` flags for the exclude
list. -/
def create_dump_command (s : MysqlSettings) : List Char :=
  "mysqldump ".toList ++ s.name ++ connection_flags s
  ++ s.exclude.foldr
      (fun tbl acc => " --ignore-table=".toList ++ s.name ++ ".".toList ++ tbl ++ acc) []

/-- Modelled from the spec (§4.2, the `restore_dump` counterpart): the
`mysql` command consuming the dump from standard input. -/
def restore_dump_command (s : MysqlSettings) : List Char :=
  "mysql ".toList ++ s.name ++ connection_flags s

end MysqlDumpConnector

/-! ## Postgres connectors

Modelled from the spec §4.2: connection-string-based engines omit the
password from the URI and supply it through an environment variable
(`PGPASSWORD`); the binary-format variant moves drop semantics to a
restore-time flag coupled with an if-exists safety flag (spec §4.2,
"Postgres binary-format variant", and §8 scenario).  The repository's
tests pin the URI shape, the `--no-password` handling of a `None`
password, and the flag spellings.
-/

/-- A child-process environment mapping, modelled as an association list
of variable names to values. -/
abbrev Env : Type := List (List Char × List Char)

/-- URL-safe characters kept verbatim by percent-encoding (ASCII
alphanumerics plus underscore, dot, tilde, hyphen and slash). -/
def urlSafeChar (c : Char) : Bool :=
  c.isAlphanum || ['_', '.', '~', '/'].contains c || c = Char.ofNat 45

/-- Upper-case hexadecimal digit of a value below 16. -/
def hexDigitChar (n : Nat) : Char :=
  if n < 10 then Char.ofNat (48 + n) else Char.ofNat (55 + n)

/-- Percent-encode one (ASCII) character. -/
def percentEncode (c : Char) : List Char :=
  [Char.ofNat 37, hexDigitChar (c.toNat / 16 % 16), hexDigitChar (c.toNat % 16)]

/-- Percent-encoding of a user name for embedding in a connection URI
(ASCII model of Python urllib quote). -/
def urlquote : List Char → List Char
  | [] => []
  | c :: rest => (if urlSafeChar c then [c] else percentEncode c) ++ urlquote rest

/-- The configured Postgres password: the settings key may be missing
(`absent`), set to Python `None` (`null`), or a string value. -/
inductive PgPassword where
  | absent : PgPassword
  | null : PgPassword
  | str (v : List Char) : PgPassword
deriving DecidableEq

/-- Connection settings of the Postgres connectors (spec §3,
`ConnectorSettings`). -/
structure PgSettings where
  host : List Char
  port : Option Nat
  name : List Char
  user : Option (List Char)
  password : PgPassword

/-- Modelled from the spec (§4.2: "for connection-string-based engines
[the password] is omitted from the URI and supplied through an environment
variable instead"; the settings parser shared by all Postgres connectors,
absent from `src/`): build the `--dbname=postgresql://...` connection
argument — user percent-encoded, password never embedded — and the
environment mapping, with `PGPASSWORD` set exactly for a non-empty
password string; a `None` password additionally appends the
`--no-password` flag to the connection argument. -/
def parse_postgres_settings (s : PgSettings) : List Char × Env :=
  let uri := "postgresql://".toList
    ++ (match s.user with
      | some u => urlquote u ++ "@".toList
      | none => [])
    ++ s.host
    ++ (match s.port with
      | some p => ":".toList ++ natToChars p
      | none => [])
    ++ "/".toList ++ s.name
  let cmdPart := "--dbname=".toList ++ uri
    ++ (match s.password with
      | .null => " --no-password".toList
      | _ => [])
  let env : Env := match s.password with
    | .str v => if v = [] then [] else [("PGPASSWORD".toList, v)]
    | _ => []
  (cmdPart, env)

/-- State of the plain (SQL-format) Postgres dump connector. -/
structure PgDumpConnector where
  settings : PgSettings
  exclude : List (List Char)
  drop : Bool
  schemas : List (List Char)

namespace PgDumpConnector

/-- Modelled from the spec (§4.2 command construction of the Postgres
connector, absent from `src/`): the `pg_dump` command of `create_dump` —
connection argument from `parse_postgres_settings`, one
`--exclude-table-data` flag per excluded table, `--clean` when drop is
set, one `-n` flag per schema. -/
def create_dump_command (c : PgDumpConnector) : List Char :=
  "pg_dump ".toList ++ (parse_postgres_settings c.settings).1
  ++ c.exclude.foldr (fun t acc => " --exclude-table-data=".toList ++ t ++ acc) []
  ++ (if c.drop then " --clean".toList else [])
  ++ c.schemas.foldr (fun s acc => " -n ".toList ++ s ++ acc) []

/-- Modelled from the spec (§4.2): the `psql` command of `restore_dump`,
built from the same password-free connection argument. -/
def restore_dump_command (c : PgDumpConnector) : List Char :=
  "psql ".toList ++ (parse_postgres_settings c.settings).1
  ++ c.schemas.foldr (fun s acc => " -n ".toList ++ s ++ acc) []

/-- The environment handed to the Command Runner by both operations. -/
def command_env (c : PgDumpConnector) : Env :=
  (parse_postgres_settings c.settings).2

end PgDumpConnector

/-- State of the binary-format (custom-format) Postgres connector
(spec §4.2, "Postgres binary-format variant"). -/
structure PgDumpBinaryConnector where
  settings : PgSettings
  exclude : List (List Char)
  drop : Bool
  if_exists : Bool
  pg_options : List Char
  schemas : List (List Char)
  restore_preamble : List Char
  restore_suffix : List Char

namespace PgDumpBinaryConnector

/-- Modelled from the spec (§4.2): the binary-format `pg_dump` command —
custom format, no dump-time `--clean` (drop semantics move to restore
time). -/
def create_dump_command (c : PgDumpBinaryConnector) : List Char :=
  "pg_dump ".toList ++ (parse_postgres_settings c.settings).1
  ++ " --format=custom".toList
  ++ c.exclude.foldr (fun t acc => " --exclude-table-data=".toList ++ t ++ acc) []
  ++ c.schemas.foldr (fun s acc => " -n ".toList ++ s ++ acc) []

/-- Modelled from the spec (§4.2: "enabling drop at restore time must
automatically also enable an if-exists safety flag ... even if if-exists
was independently disabled by configuration"; absent from `src/`): the
`pg_restore` command — `--clean` when drop is set, `--if-exists` when
if-exists is configured or drop is set, wrapped in the optional
restore preamble/suffix strings. -/
def restore_dump_command (c : PgDumpBinaryConnector) : List Char :=
  (if c.restore_preamble = [] then [] else c.restore_preamble ++ " ".toList)
  ++ "pg_restore ".toList ++ (parse_postgres_settings c.settings).1
  ++ (if c.pg_options = [] then [] else " ".toList ++ c.pg_options)
  ++ (if c.drop then " --clean".toList else [])
  ++ (if c.if_exists || c.drop then " --if-exists".toList else [])
  ++ c.schemas.foldr (fun s acc => " -n ".toList ++ s ++ acc) []
  ++ (if c.restore_suffix = [] then [] else " ".toList ++ c.restore_suffix)

/-- The environment handed to the Command Runner by both operations. -/
def command_env (c : PgDumpBinaryConnector) : Env :=
  (parse_postgres_settings c.settings).2

end PgDumpBinaryConnector

/-- Representative binary-connector state used by concrete scenarios: the
settings of the repository's binary-connector tests and no optional
extras. -/
def pgBinaryBase (drop if_ex : Bool) : PgDumpBinaryConnector :=
  ⟨⟨"hostname".toList, none, "dbname".toList, none, .absent⟩,
    [], drop, if_ex, [], [], [], []⟩

/-! ## Command Runner

Modelled from the spec §4.1: environment resolution merges three layers
key-by-key (parent environment only when `use_parent_env` is true, then
the connector-level mapping, then the call-level mapping, later layers
overriding earlier ones); a no-such-file spawn failure becomes a
`CommandNotFoundError` with remediation guidance, any other OS-level spawn
failure propagates with the raw OS error text, undecorated.  The
repository's Command Runner tests pin the message texts.
-/

/-- First value bound to a key in an environment mapping. -/
def lookupEnv : Env → List Char → Option (List Char)
  | [], _ => none
  | (k, v) :: rest, key => if k = key then some v else lookupEnv rest key

/-- Bind a key in an environment mapping, dictionary-style: replace the
first existing binding, or append a new one. -/
def setEnv : Env → List Char → List Char → Env
  | [], key, val => [(key, val)]
  | (k, v) :: rest, key, val =>
    if k = key then (key, val) :: rest else (k, v) :: setEnv rest key val

/-- Apply every binding of `upd` to `base`, dictionary-update style
(Python `dict.update`). -/
def updateEnv (base upd : Env) : Env :=
  upd.foldl (fun acc kv => setEnv acc kv.1 kv.2) base

/-- Modelled from the spec (§4.1 "Environment resolution order": parent
process environment only if `use_parent_env` is true, then the
connector-level mapping, then the call-level mapping; the Command Runner
is absent from `src/`): the environment given to the spawned child. -/
def resolve_env (use_parent : Bool) (parent conn call : Env) : Env :=
  updateEnv (updateEnv (if use_parent then parent else []) conn) call

/-- What the operating system reports when the Command Runner tries to
spawn the child process: success, the executable could not be located
(no-such-file), or another OS-level failure with its raw error text. -/
inductive SpawnOutcome where
  | success : SpawnOutcome
  | notFound : SpawnOutcome
  | osError (errText : List Char) : SpawnOutcome

/-- The executable name of a command string: its first shell token. -/
def command_name (command : List Char) : List Char :=
  (shlex_split command).headD []

/-- Modelled from the spec (§4.1 / §8 missing-command scenario; message
text pinned by the Command Runner tests): the `CommandNotFoundError`
remediation message, naming the executable, installation guidance for the
Postgres, MySQL and MongoDB client tools, and the `DUMP_CMD` /
`RESTORE_CMD` override settings. -/
def command_not_found_message (name : List Char) : List Char :=
  "Database command '".toList ++ name
  ++ ("' not found. Please ensure the required database client tools are installed."
    ++ " - PostgreSQL: Install postgresql-client."
    ++ " - MySQL: Install mysql-client."
    ++ " - MongoDB: Install mongodb-tools."
    ++ " You can override the executable paths with the settings"
    ++ " DUMP_CMD: Path to the dump command,"
    ++ " RESTORE_CMD: Path to the restore command.").toList

/-- Modelled from the spec (§4.1: other OS-level spawn failures
"propagate with the raw OS error text, undecorated"): the undecorated
error format. -/
def os_error_message (command errText : List Char) : List Char :=
  "Error running: ".toList ++ command ++ " ".toList ++ errText

/-- Modelled from the spec (§4.1 Command Runner, absent from `src/`):
spawn the tokenized command with the three-layer merged environment;
a no-such-file condition produces the decorated `CommandNotFoundError`
message, any other OS-level failure the raw undecorated error.  The
result carries the environment mapping given to the child, which is how
secrets reach the process (spec §4.1: "Must never write secret values
into the argument vector"). -/
def run_command (use_parent : Bool) (connEnv : Env) (command : List Char)
    (callEnv parentEnv : Env) (outcome : SpawnOutcome) :
    Except (List Char) Env :=
  match outcome with
  | .success => .ok (resolve_env use_parent parentEnv connEnv callEnv)
  | .notFound => .error (command_not_found_message (command_name command))
  | .osError errText => .error (os_error_message command errText)

/-! ## Transform chain

Modelled from the spec §4.3: two ordered transform steps — compress, then
encrypt — applied forward for backup and reversed (decrypt, then
decompress) for restore, each appending a filename suffix.  The gzip and
GPG internals are external collaborators (spec §1 "OUT OF SCOPE", §7) and
only their transform contract is specified, so they are modelled by
concrete reversible stream codecs: a run-length byte encoder standing for
the gzip-equivalent encoder, and a keyed byte-shift standing for the
public-key encryption step.
-/

/-- A byte of a dump stream. -/
abbrev Byte : Type := ZMod 256

/-- Run-length encoder worker: `count` (between 1 and 255) copies of `b`
are pending. -/
def rleAux : Nat → Byte → List Byte → List Byte
  | count, b, [] => [(count : Byte), b]
  | count, b, c :: rest =>
    if c = b ∧ count < 255 then rleAux (count + 1) b rest
    else (count : Byte) :: b :: rleAux 1 c rest

/-- Modelled from the spec (§4.3 compression step contract): the
gzip-equivalent stream encoder, a run-length byte code. -/
def compress_bytes : List Byte → List Byte
  | [] => []
  | b :: rest => rleAux 1 b rest

/-- Modelled from the spec (§4.3): the matching decoder step. -/
def uncompress_bytes : List Byte → List Byte
  | count :: b :: rest => List.replicate count.val b ++ uncompress_bytes rest
  | _ => []

/-- Modelled from the spec (§4.3 encryption step contract): the keyed
reversible stream cipher standing for the recipient-key encryption. -/
def encrypt_bytes (key : Byte) (data : List Byte) : List Byte :=
  data.map fun b => b + key

/-- Modelled from the spec (§4.3): the matching decryption step, which
requires the corresponding key material. -/
def unencrypt_bytes (key : Byte) (data : List Byte) : List Byte :=
  data.map fun b => b - key

/-- Which of the two transform steps a backup invocation enables
(spec §4.3: "all supported (compress, encrypt) combinations"). -/
structure TransformFlags where
  compress : Bool
  encrypt : Bool
deriving DecidableEq

/-- Modelled from the spec (§4.3 forward chain, §3 `TransformResult`):
apply compress then encrypt, each producing a new stream and appending
its filename suffix. -/
def forward_chain (flags : TransformFlags) (key : Byte) (data : List Byte)
    (filename : List Char) : List Byte × List Char :=
  let s1 := if flags.compress then (compress_bytes data, filename ++ ".gz".toList)
    else (data, filename)
  if flags.encrypt then (encrypt_bytes key s1.1, s1.2 ++ ".gpg".toList) else s1

/-- Modelled from the spec (§4.3 reverse chain: decrypt, then
decompress, in exact reverse order of the forward chain). -/
def reverse_chain (flags : TransformFlags) (key : Byte) (data : List Byte) :
    List Byte :=
  let d1 := if flags.encrypt then unencrypt_bytes key data else data
  if flags.compress then uncompress_bytes d1 else d1

/-! ## Restore orchestrator: connector resolution override

Modelled from the spec §4.5 ("Connector resolution override"): a
connector class recorded in metadata is loaded dynamically for the
restore; when the class cannot be imported the orchestrator falls back to
the normally-resolved default connector, in interactive mode only after
an explicit operator yes answer, while an interactive no answer aborts
the entire restore with a non-zero exit.
-/

/-- How the restore orchestrator resolves its connector: the connector
class recorded in metadata, the normally-resolved default connector
(`get_connector`), or an abort of the whole restore (non-zero exit)
without any connector resolution. -/
inductive RestoreConnectorChoice where
  | metadataConnector (cls : String) : RestoreConnectorChoice
  | defaultConnector : RestoreConnectorChoice
  | abortRestore : RestoreConnectorChoice
deriving DecidableEq

/-- Modelled from the spec (§4.5 connector resolution override of the
restore orchestrator, absent from `src/`): `importable` says whether a
recorded class can be dynamically imported; `answerYes` is the operator's
answer when prompted in interactive mode. -/
def resolve_restore_connector (metaConnector : Option String)
    (importable : String → Bool) (interactive : Bool) (answerYes : Bool) :
    RestoreConnectorChoice :=
  match metaConnector with
  | none => .defaultConnector
  | some cls =>
    if importable cls then .metadataConnector cls
    else if interactive then
      if answerYes then .defaultConnector else .abortRestore
    else .defaultConnector

/-- The password `pass'word"test` of the escaping scenario (spec §8). -/
def pwSpecial : List Char :=
  "pass".toList ++ [squote] ++ "word".toList ++ [dquote] ++ "test".toList

example : route_backup_write "s3://bucket/backups/db.bak".toList =
    .remoteStorage "s3://bucket/backups/db.bak".toList := by decide

example : route_backup_write "s3_backup.bak".toList =
    .localFile "s3_backup.bak".toList := by decide

example : check_metadata "django.db.backends.sqlite3"
    (.present "django.db.backends.postgresql" none) =
    .error engineMismatchMessage := by
  simp [check_metadata, djangoConnectorClass]

example : shlex_split "mysqldump testdb".toList =
    ["mysqldump".toList, "testdb".toList] := by decide

theorem shRun_nil (st : ShState) : shRun [] st = st := rfl

theorem shRun_cons (c : Char) (rest : List Char) (st : ShState) :
    shRun (c :: rest) st = shRun rest (shStep st c) := rfl

theorem shRun_append (a b : List Char) (st : ShState) :
    shRun (a ++ b) st = shRun b (shRun a st) := by
  induction a generalizing st with
  | nil => rfl
  | cons c rest ih => simp [shRun, ih]

theorem shStep_norm_plain {c : Char} (h1 : c ∉ shWhitespace) (h2 : c ≠ squote)
    (h3 : c ≠ dquote) (h4 : c ≠ bslash) (w : Option (List Char))
    (t : List (List Char)) :
    shStep ⟨.norm, w, t⟩ c = ⟨.norm, pushChar w c, t⟩ := by
  simp [shStep, h1, h2, h3, h4]

theorem shStep_norm_squote (w : Option (List Char)) (t : List (List Char)) :
    shStep ⟨.norm, w, t⟩ squote = ⟨.single, some (w.getD []), t⟩ := by
  simp [shStep, show squote ∉ shWhitespace by decide]

theorem shStep_norm_dquote (w : Option (List Char)) (t : List (List Char)) :
    shStep ⟨.norm, w, t⟩ dquote = ⟨.double, some (w.getD []), t⟩ := by
  simp [shStep, show dquote ∉ shWhitespace by decide,
    show dquote ≠ squote by decide]

theorem shStep_single_squote (w : Option (List Char)) (t : List (List Char)) :
    shStep ⟨.single, w, t⟩ squote = ⟨.norm, w, t⟩ := by
  simp [shStep]

theorem shStep_single_other {c : Char} (h : c ≠ squote)
    (w : Option (List Char)) (t : List (List Char)) :
    shStep ⟨.single, w, t⟩ c = ⟨.single, pushChar w c, t⟩ := by
  simp [shStep, h]

theorem shStep_double_dquote (w : Option (List Char)) (t : List (List Char)) :
    shStep ⟨.double, w, t⟩ dquote = ⟨.norm, w, t⟩ := by
  simp [shStep]

theorem shStep_double_other {c : Char} (h1 : c ≠ dquote) (h2 : c ≠ bslash)
    (w : Option (List Char)) (t : List (List Char)) :
    shStep ⟨.double, w, t⟩ c = ⟨.double, pushChar w c, t⟩ := by
  simp [shStep, h1, h2]

/-- A safe character is not tokenizer whitespace. -/
theorem shSafeChar_not_ws {c : Char} (h : shSafeChar c = true) :
    c ∉ shWhitespace := by
  intro hc
  simp [shWhitespace] at hc
  rcases hc with rfl | rfl | rfl | rfl <;> exact absurd h (by decide)

/-- A safe character is not the single quote. -/
theorem shSafeChar_ne_squote {c : Char} (h : shSafeChar c = true) :
    c ≠ squote := by
  rintro rfl; exact absurd h (by decide)

/-- A safe character is not the double quote. -/
theorem shSafeChar_ne_dquote {c : Char} (h : shSafeChar c = true) :
    c ≠ dquote := by
  rintro rfl; exact absurd h (by decide)

/-- A safe character is not the backslash. -/
theorem shSafeChar_ne_bslash {c : Char} (h : shSafeChar c = true) :
    c ≠ bslash := by
  rintro rfl; exact absurd h (by decide)

/-- Running the tokenizer over safe characters in normal mode just extends
the word in progress. -/
theorem shRun_safe (s : List Char) (hs : s.all shSafeChar) (w : List Char)
    (t : List (List Char)) :
    shRun s ⟨.norm, some w, t⟩ = ⟨.norm, some (w ++ s), t⟩ := by
  induction s generalizing w with
  | nil => simp [shRun]
  | cons c rest ih =>
    simp only [List.all_cons, Bool.and_eq_true] at hs
    rw [shRun_cons, shStep_norm_plain (shSafeChar_not_ws hs.1)
      (shSafeChar_ne_squote hs.1) (shSafeChar_ne_dquote hs.1)
      (shSafeChar_ne_bslash hs.1)]
    rw [pushChar, Option.getD_some, ih hs.2 (w ++ [c])]
    simp

/-- Running the tokenizer over an escaped-quotes body in single-quote mode
appends exactly the original characters to the word in progress. -/
theorem shRun_escape_body (s : List Char) (w : List Char)
    (t : List (List Char)) :
    shRun (shEscapeQuotes s) ⟨.single, some w, t⟩ = ⟨.single, some (w ++ s), t⟩ := by
  induction s generalizing w with
  | nil => simp [shEscapeQuotes, shRun]
  | cons c rest ih =>
    by_cases hc : c = squote
    · subst hc
      rw [shEscapeQuotes, if_pos rfl, shRun_append]
      have h5 : shRun shQuoteSeq ⟨.single, some w, t⟩ =
          ⟨.single, some (w ++ [squote]), t⟩ := by
        rw [shQuoteSeq, shRun_cons, shStep_single_squote,
          shRun_cons, shStep_norm_dquote, Option.getD_some,
          shRun_cons, shStep_double_other (by decide) (by decide), pushChar,
          Option.getD_some,
          shRun_cons, shStep_double_dquote,
          shRun_cons, shStep_norm_squote, Option.getD_some, shRun_nil]
      rw [h5, ih (w ++ [squote])]
      simp
    · rw [shEscapeQuotes, if_neg hc, List.singleton_append, shRun_cons,
        shStep_single_other hc, pushChar, Option.getD_some, ih (w ++ [c])]
      simp

/-- Running the tokenizer over a shell-escaped argument in normal mode,
mid-word, appends exactly the original characters to the word: re-parsing
a `get_escaped_command_arg` result recovers the literal argument. -/
theorem shRun_escaped_arg (s : List Char) (w : List Char)
    (t : List (List Char)) :
    shRun (get_escaped_command_arg s) ⟨.norm, some w, t⟩ =
      ⟨.norm, some (w ++ s), t⟩ := by
  by_cases h0 : s = []
  · subst h0
    rw [show get_escaped_command_arg [] = [squote, squote] from rfl,
      shRun_cons, shStep_norm_squote, Option.getD_some, shRun_cons,
      shStep_single_squote, shRun_nil]
    simp
  · rw [get_escaped_command_arg, if_neg h0]
    by_cases hsafe : s.all shSafeChar
    · rw [if_pos hsafe]; exact shRun_safe s hsafe w t
    · rw [if_neg hsafe, shRun_cons, shStep_norm_squote, Option.getD_some,
        shRun_append, shRun_escape_body, shRun_cons,
        shStep_single_squote, shRun_nil]

example : MysqlDumpConnector.create_dump_command
    ⟨"db".toList, some "foo".toList, some 42, none, none, ["bar".toList]⟩ =
    "mysqldump db --host=foo --port=42 --ignore-table=db.bar".toList := by decide

example : strContains
    (MysqlDumpConnector.create_dump_command
      ⟨"testdb".toList, none, none, none, some "password with spaces".toList, []⟩)
    " --password='password with spaces'".toList := by decide

/-- The tokenizer state after the literal `mysqldump testdb --password=`
stem of the MySQL dump command. -/
theorem shRun_mysql_stem :
    shRun "mysqldump testdb --password=".toList shInit =
      ⟨.norm, some "--password=".toList, ["mysqldump".toList, "testdb".toList]⟩ := by
  decide

/-- For every password, tokenizing the constructed `mysqldump` command
with the shell tokenizer yields the `--password=` argument carrying the
literal password exactly. -/
theorem mysql_password_shell_roundtrip (pw : List Char) :
    shlex_split (MysqlDumpConnector.create_dump_command
        ⟨"testdb".toList, none, none, none, some pw, []⟩) =
      ["mysqldump".toList, "testdb".toList, "--password=".toList ++ pw] := by
  have hcmd : MysqlDumpConnector.create_dump_command
      ⟨"testdb".toList, none, none, none, some pw, []⟩ =
      "mysqldump testdb --password=".toList ++ get_escaped_command_arg pw := by
    simp only [MysqlDumpConnector.create_dump_command,
      MysqlDumpConnector.connection_flags, List.foldr, List.append_nil,
      List.nil_append, List.append_assoc]
    rw [← List.append_assoc, ← List.append_assoc,
      show ("mysqldump ".toList ++ "testdb".toList) ++ " --password=".toList =
        "mysqldump testdb --password=".toList from by decide]
  rw [hcmd, shlex_split, shRun_append, shRun_mysql_stem, shRun_escaped_arg]
  rfl

example : urlquote "user@domain.com".toList = "user%40domain.com".toList := by decide

example : (parse_postgres_settings
    ⟨"localhost".toList, some 5432, "testdb".toList, some "testuser".toList,
      .str "testpass".toList⟩).1 =
    "--dbname=postgresql://testuser@localhost:5432/testdb".toList := by decide

example : (parse_postgres_settings
    ⟨"localhost".toList, some 5432, "testdb".toList, some "testuser".toList,
      .str "testpass".toList⟩).2 =
    [("PGPASSWORD".toList, "testpass".toList)] := rfl

example : PgDumpBinaryConnector.restore_dump_command (pgBinaryBase true false) =
    "pg_restore --dbname=postgresql://hostname/dbname --clean --if-exists".toList := by
  decide

theorem lookupEnv_setEnv (l : Env) (key val k2 : List Char) :
    lookupEnv (setEnv l key val) k2 =
      if k2 = key then some val else lookupEnv l k2 := by
  induction l with
  | nil =>
    by_cases h : k2 = key
    · subst h; simp [setEnv, lookupEnv]
    · simp [setEnv, lookupEnv, h, Ne.symm h]
  | cons kv rest ih =>
    obtain ⟨k, v⟩ := kv
    by_cases hk : k = key
    · subst hk
      by_cases h2 : k2 = k
      · subst h2; simp [setEnv, lookupEnv]
      · simp [setEnv, lookupEnv, h2, Ne.symm h2]
    · by_cases h2 : k2 = k
      · subst h2
        simp [setEnv, lookupEnv, hk, Ne.symm hk]
      · simp [setEnv, lookupEnv, hk, h2, Ne.symm h2, ih]

/-- A key outside an environment's key set has no binding. -/
theorem lookupEnv_eq_none (l : Env) (k : List Char)
    (h : k ∉ l.map Prod.fst) : lookupEnv l k = none := by
  induction l with
  | nil => rfl
  | cons kv rest ih =>
    simp only [List.map_cons, List.mem_cons] at h
    push_neg at h
    rw [lookupEnv, if_neg (Ne.symm h.1)]
    exact ih h.2

/-- Dictionary update resolves lookups in favour of the update layer,
key-by-key, provided the update layer binds each key at most once (as a
Python dict does). -/
theorem lookupEnv_updateEnv (base upd : Env) (k : List Char)
    (h : (upd.map Prod.fst).Nodup) :
    lookupEnv (updateEnv base upd) k =
      (match lookupEnv upd k with
        | some v => some v
        | none => lookupEnv base k) := by
  induction upd generalizing base with
  | nil => rfl
  | cons kv rest ih =>
    obtain ⟨k1, v1⟩ := kv
    simp only [List.map_cons, List.nodup_cons] at h
    have step : updateEnv base ((k1, v1) :: rest) =
        updateEnv (setEnv base k1 v1) rest := rfl
    rw [step, ih (setEnv base k1 v1) h.2]
    by_cases hk : k = k1
    · subst hk
      simp [lookupEnv, lookupEnv_setEnv, lookupEnv_eq_none rest k h.1]
    · simp [lookupEnv, lookupEnv_setEnv, hk, Ne.symm hk]

theorem uncompress_rleAux (l : List Byte) (b : Byte) (count : Nat)
    (h1 : 1 ≤ count) (h2 : count ≤ 255) :
    uncompress_bytes (rleAux count b l) = List.replicate count b ++ l := by
  induction l generalizing count b with
  | nil =>
    rw [rleAux, uncompress_bytes, uncompress_bytes,
      ZMod.val_cast_of_lt (by omega : count < 256)]
    simp
  | cons c rest ih =>
    rw [rleAux]
    by_cases hc : c = b ∧ count < 255
    · rw [if_pos hc, ih b (count + 1) (by omega) (by omega), hc.1,
        List.replicate_succ' count b]
      simp
    · rw [if_neg hc, uncompress_bytes,
        ZMod.val_cast_of_lt (by omega : count < 256),
        ih c 1 (by omega) (by omega)]
      simp

/-- The compression codec round-trips every byte stream. -/
theorem uncompress_compress (data : List Byte) :
    uncompress_bytes (compress_bytes data) = data := by
  cases data with
  | nil => rfl
  | cons b rest =>
    rw [compress_bytes, uncompress_rleAux rest b 1 (by omega) (by omega)]
    simp

/-- The encryption codec round-trips every byte stream under its key. -/
theorem unencrypt_encrypt (key : Byte) (data : List Byte) :
    unencrypt_bytes key (encrypt_bytes key data) = data := by
  rw [encrypt_bytes, unencrypt_bytes, List.map_map]
  have : ((fun b => b - key) ∘ fun b => b + key) = (id : Byte → Byte) := by
    funext b; simp
  rw [this, List.map_id]

/-! ## Helper lemmas for substring containment -/

theorem strContains_append_left (a b pat : List Char)
    (h : strContains a pat) : strContains (a ++ b) pat :=
  h.trans (List.prefix_append a b).isInfix

theorem strContains_append_right (a b pat : List Char)
    (h : strContains b pat) : strContains (a ++ b) pat :=
  h.trans (List.suffix_append a b).isInfix

theorem strContains_refl (a : List Char) : strContains a a :=
  List.infix_refl a

/-! ## The claims -/

/-- C2: during restore, sidecar metadata recording an engine different
from the live target database's engine makes the restore fail with a
configuration error whose message contains "different database engine";
the restore proceeds when the metadata additionally records the
native-serializer (Django) connector class, and proceeds without any
validation when the metadata file is absent or unreadable. -/
theorem C2_metadata_engine_guard (live eng : String) (conn : Option String)
    (hne : eng ≠ live) (hconn : conn ≠ some djangoConnectorClass) :
    check_metadata live (.present eng conn) = .error engineMismatchMessage
    ∧ strContains engineMismatchMessage.toList "different database engine".toList
    ∧ check_metadata live (.present eng (some djangoConnectorClass)) = .ok ()
    ∧ check_metadata live .absent = .ok () := by
  refine ⟨?_, by decide, ?_, rfl⟩
  · simp [check_metadata, hne, hconn]
  · simp [check_metadata, hne]

theorem C2_metadata_engine_guard_witness :
    check_metadata "django.db.backends.sqlite3"
        (.present "django.db.backends.postgresql" none) =
      .error engineMismatchMessage
    ∧ strContains engineMismatchMessage.toList "different database engine".toList
    ∧ check_metadata "django.db.backends.sqlite3"
        (.present "django.db.backends.postgresql" (some djangoConnectorClass)) =
      .ok ()
    ∧ check_metadata "django.db.backends.sqlite3" .absent = .ok () :=
  C2_metadata_engine_guard "django.db.backends.sqlite3"
    "django.db.backends.postgresql" none (by decide) (by decide)

/-- C3: for every byte content, every combination of the compress and
encrypt transforms and every key, applying the forward transform chain
and then the reverse chain (decrypt, then decompress) reproduces the
original bytes exactly. -/
theorem C3_transform_chain_round_trip (flags : TransformFlags) (key : Byte)
    (data : List Byte) (filename : List Char) :
    reverse_chain flags key (forward_chain flags key data filename).1 = data := by
  obtain ⟨c, e⟩ := flags
  cases c <;> cases e <;>
    simp [forward_chain, reverse_chain, unencrypt_encrypt, uncompress_compress]

/-- C4: for the binary-format Postgres connector, the restore command
contains the if-exists flag exactly when if-exists is configured or drop
is set — so restore with drop and if-exists explicitly disabled still
carries the flag, while with both disabled the flag is absent. -/
theorem C4_binary_drop_if_exists_coupling :
    strContains
        (PgDumpBinaryConnector.restore_dump_command (pgBinaryBase true false))
        " --if-exists".toList
    ∧ ¬ strContains
        (PgDumpBinaryConnector.restore_dump_command (pgBinaryBase false false))
        " --if-exists".toList
    ∧ strContains
        (PgDumpBinaryConnector.restore_dump_command (pgBinaryBase true false))
        " --clean".toList
    ∧ ∀ d i : Bool,
        (strContains
          (PgDumpBinaryConnector.restore_dump_command (pgBinaryBase d i))
          " --if-exists".toList ↔ (i || d) = true) := by
  refine ⟨by decide, by decide, by decide, ?_⟩
  intro d i
  cases d <;> cases i <;> decide

/-- C5: the backup orchestrator routes a destination through the
remote-storage path, with the path string unchanged, exactly when the
path starts with the literal scheme marker; a path merely containing the
scheme substring elsewhere is written through the local-file path. -/
theorem C5_s3_path_routing (path : List Char) :
    (route_backup_write path = .remoteStorage path ↔
      s3Scheme.isPrefixOf path = true)
    ∧ (route_backup_write path = .localFile path ↔
      s3Scheme.isPrefixOf path = false)
    ∧ route_backup_write "s3://bucket/backups/db.bak".toList =
        .remoteStorage "s3://bucket/backups/db.bak".toList
    ∧ route_backup_write "s3_backup.bak".toList =
        .localFile "s3_backup.bak".toList
    ∧ strContains "s3_backup.bak".toList "s3".toList := by
  refine ⟨?_, ?_, by decide, by decide, by decide⟩ <;>
    by_cases h : s3Scheme.isPrefixOf path = true <;>
      simp [route_backup_write, h]

/-- C6: a no-such-file spawn failure in the Command Runner produces the
CommandNotFoundError message carrying the executable name, installation
guidance for the Postgres, MySQL and MongoDB client tools and the
DUMP_CMD / RESTORE_CMD override settings, while any other OS-level spawn
failure propagates the raw OS error text without that decoration. -/
theorem C6_command_runner_error_messages (use_parent : Bool)
    (connEnv callEnv parentEnv : Env) (command errText : List Char) :
    run_command use_parent connEnv command callEnv parentEnv .notFound =
      .error (command_not_found_message (command_name command))
    ∧ strContains (command_not_found_message (command_name command))
        (command_name command)
    ∧ strContains (command_not_found_message (command_name command))
        "PostgreSQL: Install postgresql-client".toList
    ∧ strContains (command_not_found_message (command_name command))
        "MySQL: Install mysql-client".toList
    ∧ strContains (command_not_found_message (command_name command))
        "MongoDB: Install mongodb-tools".toList
    ∧ strContains (command_not_found_message (command_name command))
        "DUMP_CMD: Path to the dump command".toList
    ∧ strContains (command_not_found_message (command_name command))
        "RESTORE_CMD: Path to the restore command".toList
    ∧ run_command use_parent connEnv command callEnv parentEnv
        (.osError errText) = .error (os_error_message command errText)
    ∧ strContains
        (os_error_message "some_command".toList "Permission denied".toList)
        "Permission denied".toList
    ∧ ¬ strContains
        (os_error_message "some_command".toList "Permission denied".toList)
        "Database command".toList := by
  refine ⟨rfl, ?_, ?_, ?_, ?_, ?_, ?_, rfl, by decide, by decide⟩
  · exact strContains_append_left _ _ _
      (strContains_append_right _ _ _ (strContains_refl _))
  all_goals
    exact strContains_append_right _ _ _ (by decide)

/-- C7: for every key, the environment given to the spawned child is the
key-by-key merge of the parent process environment (included only when
use-parent-env is true), then the connector-level mapping, then the
per-call mapping, later layers overriding earlier ones. -/
theorem C7_env_resolution_order (use_parent : Bool) (parent conn call : Env)
    (k : List Char) (hconn : (conn.map Prod.fst).Nodup)
    (hcall : (call.map Prod.fst).Nodup) :
    lookupEnv (resolve_env use_parent parent conn call) k =
      (match lookupEnv call k with
        | some v => some v
        | none =>
          match lookupEnv conn k with
          | some v => some v
          | none => if use_parent then lookupEnv parent k else none) := by
  rw [resolve_env, lookupEnv_updateEnv _ _ _ hcall, lookupEnv_updateEnv _ _ _ hconn]
  cases lookupEnv call k <;> cases lookupEnv conn k <;> cases use_parent <;>
    simp [lookupEnv]

theorem C7_env_resolution_order_witness :
    lookupEnv (resolve_env true [("bar".toList, "foo".toList)]
      [("bar".toList, "bar".toList), ("spam".toList, "egg".toList)]
      [("bar".toList, "ham".toList)]) "bar".toList = some "ham".toList
    ∧ lookupEnv (resolve_env true [("bar".toList, "foo".toList)]
      [("bar".toList, "bar".toList), ("spam".toList, "egg".toList)]
      [("bar".toList, "ham".toList)]) "spam".toList = some "egg".toList
    ∧ lookupEnv (resolve_env false [("bar".toList, "foo".toList)] [] [])
      "bar".toList = none := by
  refine ⟨?_, ?_, ?_⟩
  · rw [C7_env_resolution_order true _ _ _ _ (by decide) (by decide)]; rfl
  · rw [C7_env_resolution_order true _ _ _ _ (by decide) (by decide)]; rfl
  · rw [C7_env_resolution_order false _ _ _ _ (by decide) (by decide)]; rfl

/-- C8: when the metadata connector class cannot be imported, restore
falls back to the normally-resolved default connector — directly in
non-interactive mode, and in interactive mode only after an operator yes
answer; an interactive no answer aborts the entire restore and the
default-connector resolution is not reached. -/
theorem C8_connector_import_fallback (cls : String)
    (importable : String → Bool) (h : importable cls = false) :
    resolve_restore_connector (some cls) importable false true =
      .defaultConnector
    ∧ resolve_restore_connector (some cls) importable false false =
      .defaultConnector
    ∧ resolve_restore_connector (some cls) importable true true =
      .defaultConnector
    ∧ resolve_restore_connector (some cls) importable true false =
      .abortRestore
    ∧ resolve_restore_connector (some cls) importable true false ≠
      .defaultConnector := by
  simp [resolve_restore_connector, h]

theorem C8_connector_import_fallback_witness :
    resolve_restore_connector (some "my.broken.Connector") (fun _ => false)
      false true = .defaultConnector
    ∧ resolve_restore_connector (some "my.broken.Connector") (fun _ => false)
      false false = .defaultConnector
    ∧ resolve_restore_connector (some "my.broken.Connector") (fun _ => false)
      true true = .defaultConnector
    ∧ resolve_restore_connector (some "my.broken.Connector") (fun _ => false)
      true false = .abortRestore
    ∧ resolve_restore_connector (some "my.broken.Connector") (fun _ => false)
      true false ≠ .defaultConnector :=
  C8_connector_import_fallback "my.broken.Connector" (fun _ => false) rfl

/-- C9: the MySQL dump command carries the configured password in
shell-escaped form, and re-parsing the command with the shell tokenizer
recovers the literal password exactly — for every password, and in
particular for the password of the scenario, which contains both kinds of
quote. -/
theorem C9_mysql_password_escaping_roundtrip :
    (∀ pw : List Char,
      shlex_split (MysqlDumpConnector.create_dump_command
          ⟨"testdb".toList, none, none, none, some pw, []⟩) =
        ["mysqldump".toList, "testdb".toList, "--password=".toList ++ pw])
    ∧ shlex_split (MysqlDumpConnector.create_dump_command
          ⟨"testdb".toList, none, none, none, some pwSpecial, []⟩) =
        ["mysqldump".toList, "testdb".toList, "--password=".toList ++ pwSpecial]
    ∧ strContains (MysqlDumpConnector.create_dump_command
          ⟨"testdb".toList, none, none, none, some pwSpecial, []⟩)
        (" --password=".toList ++ get_escaped_command_arg pwSpecial) :=
  ⟨mysql_password_shell_roundtrip, mysql_password_shell_roundtrip pwSpecial,
    by decide⟩

/-- C10: the Postgres settings parser puts a non-empty password in the
environment exactly as PGPASSWORD and never into the connection argument
(which is independent of the password value); an empty-string password
yields an empty environment; a None password yields an empty environment
and appends the no-password flag to the connection argument. -/
theorem C10_postgres_settings_password (host : List Char) (port : Option Nat)
    (name : List Char) (user : Option (List Char)) (v : List Char)
    (hv : v ≠ []) :
    (parse_postgres_settings ⟨host, port, name, user, .str v⟩).2 =
      [("PGPASSWORD".toList, v)]
    ∧ (parse_postgres_settings ⟨host, port, name, user, .str v⟩).1 =
      (parse_postgres_settings ⟨host, port, name, user, .absent⟩).1
    ∧ (parse_postgres_settings ⟨host, port, name, user, .str []⟩).2 = []
    ∧ (parse_postgres_settings ⟨host, port, name, user, .null⟩).2 = []
    ∧ (parse_postgres_settings ⟨host, port, name, user, .null⟩).1 =
      (parse_postgres_settings ⟨host, port, name, user, .absent⟩).1
        ++ " --no-password".toList := by
  refine ⟨by simp [parse_postgres_settings, hv], rfl, rfl, rfl,
    by simp [parse_postgres_settings]⟩

theorem C10_postgres_settings_password_witness :
    (parse_postgres_settings ⟨"localhost".toList, some 5432, "testdb".toList,
        some "testuser".toList, .str "testpass".toList⟩).2 =
      [("PGPASSWORD".toList, "testpass".toList)]
    ∧ (parse_postgres_settings ⟨"localhost".toList, some 5432, "testdb".toList,
        some "testuser".toList, .str "testpass".toList⟩).1 =
      (parse_postgres_settings ⟨"localhost".toList, some 5432, "testdb".toList,
        some "testuser".toList, .absent⟩).1
    ∧ (parse_postgres_settings ⟨"localhost".toList, some 5432, "testdb".toList,
        some "testuser".toList, .str []⟩).2 = []
    ∧ (parse_postgres_settings ⟨"localhost".toList, some 5432, "testdb".toList,
        some "testuser".toList, .null⟩).2 = []
    ∧ (parse_postgres_settings ⟨"localhost".toList, some 5432, "testdb".toList,
        some "testuser".toList, .null⟩).1 =
      (parse_postgres_settings ⟨"localhost".toList, some 5432, "testdb".toList,
        some "testuser".toList, .absent⟩).1 ++ " --no-password".toList :=
  C10_postgres_settings_password "localhost".toList (some 5432)
    "testdb".toList (some "testuser".toList) "testpass".toList (by decide)

/-- C1 counterexample: for the MySQL connector with the non-empty
configured password "foo", the command string constructed by create_dump
does contain the password substring (as the shell-escaped inline
password flag), refuting the claim for that connector variant. -/
theorem C1_counterexample_mysql_password_in_command :
    "foo".toList ≠ []
    ∧ strContains
        (MysqlDumpConnector.create_dump_command
          ⟨"testdb".toList, none, none, none, some "foo".toList, []⟩)
        "foo".toList := by
  decide

/-- C1 (amended): for the connection-URI-based Postgres connector
variants — plain and binary-format alike — the command strings
constructed by create_dump and restore_dump are independent of any
non-empty configured password, which reaches the spawned process only
through the environment mapping (PGPASSWORD) given to the Command
Runner; the flag-based MySQL connector instead places the password into
the command string of both operations, but only in shell-escaped
form. -/
theorem C1_amended_password_never_raw_in_command (s : PgSettings)
    (p1 p2 : List Char) (hp1 : p1 ≠ []) (hp2 : p2 ≠ [])
    (exclude : List (List Char)) (drop if_ex : Bool)
    (opts : List Char) (schemas : List (List Char))
    (preamble suffix : List Char) (ms : MysqlSettings) (pw : List Char) :
    PgDumpConnector.create_dump_command
        ⟨{s with password := .str p1}, exclude, drop, schemas⟩ =
      PgDumpConnector.create_dump_command
        ⟨{s with password := .str p2}, exclude, drop, schemas⟩
    ∧ PgDumpConnector.restore_dump_command
        ⟨{s with password := .str p1}, exclude, drop, schemas⟩ =
      PgDumpConnector.restore_dump_command
        ⟨{s with password := .str p2}, exclude, drop, schemas⟩
    ∧ PgDumpConnector.command_env
        ⟨{s with password := .str p1}, exclude, drop, schemas⟩ =
      [("PGPASSWORD".toList, p1)]
    ∧ PgDumpConnector.command_env
        ⟨{s with password := .str p2}, exclude, drop, schemas⟩ =
      [("PGPASSWORD".toList, p2)]
    ∧ PgDumpBinaryConnector.create_dump_command
        ⟨{s with password := .str p1}, exclude, drop, if_ex, opts, schemas,
          preamble, suffix⟩ =
      PgDumpBinaryConnector.create_dump_command
        ⟨{s with password := .str p2}, exclude, drop, if_ex, opts, schemas,
          preamble, suffix⟩
    ∧ PgDumpBinaryConnector.restore_dump_command
        ⟨{s with password := .str p1}, exclude, drop, if_ex, opts, schemas,
          preamble, suffix⟩ =
      PgDumpBinaryConnector.restore_dump_command
        ⟨{s with password := .str p2}, exclude, drop, if_ex, opts, schemas,
          preamble, suffix⟩
    ∧ PgDumpBinaryConnector.command_env
        ⟨{s with password := .str p1}, exclude, drop, if_ex, opts, schemas,
          preamble, suffix⟩ =
      [("PGPASSWORD".toList, p1)]
    ∧ PgDumpBinaryConnector.command_env
        ⟨{s with password := .str p2}, exclude, drop, if_ex, opts, schemas,
          preamble, suffix⟩ =
      [("PGPASSWORD".toList, p2)]
    ∧ strContains
        (MysqlDumpConnector.create_dump_command {ms with password := some pw})
        (" --password=".toList ++ get_escaped_command_arg pw)
    ∧ strContains
        (MysqlDumpConnector.restore_dump_command {ms with password := some pw})
        (" --password=".toList ++ get_escaped_command_arg pw) := by
  refine ⟨rfl, rfl, ?_, ?_, rfl, rfl, ?_, ?_, ?_, ?_⟩
  · simp [PgDumpConnector.command_env, parse_postgres_settings, hp1]
  · simp [PgDumpConnector.command_env, parse_postgres_settings, hp2]
  · simp [PgDumpBinaryConnector.command_env, parse_postgres_settings, hp1]
  · simp [PgDumpBinaryConnector.command_env, parse_postgres_settings, hp2]
  · unfold MysqlDumpConnector.create_dump_command
      MysqlDumpConnector.connection_flags
    apply strContains_append_left
    apply strContains_append_right
    exact (List.suffix_append _ _).isInfix
  · unfold MysqlDumpConnector.restore_dump_command
      MysqlDumpConnector.connection_flags
    apply strContains_append_right
    exact (List.suffix_append _ _).isInfix

theorem C1_amended_password_never_raw_in_command_witness :
    PgDumpConnector.create_dump_command
        ⟨⟨"hostname".toList, none, "dbname".toList, none, .str "secret".toList⟩,
          [], false, []⟩ =
      PgDumpConnector.create_dump_command
        ⟨⟨"hostname".toList, none, "dbname".toList, none, .str "other".toList⟩,
          [], false, []⟩
    ∧ PgDumpConnector.restore_dump_command
        ⟨⟨"hostname".toList, none, "dbname".toList, none, .str "secret".toList⟩,
          [], false, []⟩ =
      PgDumpConnector.restore_dump_command
        ⟨⟨"hostname".toList, none, "dbname".toList, none, .str "other".toList⟩,
          [], false, []⟩
    ∧ PgDumpConnector.command_env
        ⟨⟨"hostname".toList, none, "dbname".toList, none, .str "secret".toList⟩,
          [], false, []⟩ = [("PGPASSWORD".toList, "secret".toList)]
    ∧ PgDumpConnector.command_env
        ⟨⟨"hostname".toList, none, "dbname".toList, none, .str "other".toList⟩,
          [], false, []⟩ = [("PGPASSWORD".toList, "other".toList)]
    ∧ PgDumpBinaryConnector.create_dump_command
        ⟨⟨"hostname".toList, none, "dbname".toList, none, .str "secret".toList⟩,
          [], false, true, [], [], [], []⟩ =
      PgDumpBinaryConnector.create_dump_command
        ⟨⟨"hostname".toList, none, "dbname".toList, none, .str "other".toList⟩,
          [], false, true, [], [], [], []⟩
    ∧ PgDumpBinaryConnector.restore_dump_command
        ⟨⟨"hostname".toList, none, "dbname".toList, none, .str "secret".toList⟩,
          [], false, true, [], [], [], []⟩ =
      PgDumpBinaryConnector.restore_dump_command
        ⟨⟨"hostname".toList, none, "dbname".toList, none, .str "other".toList⟩,
          [], false, true, [], [], [], []⟩
    ∧ PgDumpBinaryConnector.command_env
        ⟨⟨"hostname".toList, none, "dbname".toList, none, .str "secret".toList⟩,
          [], false, true, [], [], [], []⟩ =
      [("PGPASSWORD".toList, "secret".toList)]
    ∧ PgDumpBinaryConnector.command_env
        ⟨⟨"hostname".toList, none, "dbname".toList, none, .str "other".toList⟩,
          [], false, true, [], [], [], []⟩ =
      [("PGPASSWORD".toList, "other".toList)]
    ∧ strContains
        (MysqlDumpConnector.create_dump_command
          ⟨"testdb".toList, none, none, none, some "foo".toList, []⟩)
        (" --password=".toList ++ get_escaped_command_arg "foo".toList)
    ∧ strContains
        (MysqlDumpConnector.restore_dump_command
          ⟨"testdb".toList, none, none, none, some "foo".toList, []⟩)
        (" --password=".toList ++ get_escaped_command_arg "foo".toList) :=
  C1_amended_password_never_raw_in_command
    ⟨"hostname".toList, none, "dbname".toList, none, .absent⟩
    "secret".toList "other".toList (by decide) (by decide) [] false true [] [] [] []
    ⟨"testdb".toList, none, none, none, none, []⟩ "foo".toList
